import Mathlib

/-!
Verification of the vitess planner entry point for SELECT, the Binary
vindex, and the StatefulConnection lifecycle, via a shallow embedding of
the Go source in Lean 4.  The planner AST fragments, primitives and the
connection state are translated from the source files; external
collaborators (semantic analyzer, operator builder, parser, backend
connection) are modelled as oracle parameters.
-/

namespace Vitess

/-! ## sqlparser AST fragments (shallow model of the parts used by select.go) -/

/-- Model of sqlparser.Expr, restricted to the shapes select.go inspects:
literals, columns, aggregation functions, locking functions (with and
without a name argument) and a catch-all. -/
inductive Expr where
  | literal (val : String)
  | column (name : String)
  | countStar
  | aggregate (n : Nat)
  | lockingFuncNoArg (typ : String)
  | lockingFuncArg (typ : String) (lockName : Expr)
  | otherExpr (n : Nat)
deriving DecidableEq

/-- View of the two locking-function shapes as the Go struct LockingFunc
with its optional Name field. -/
def Expr.lockingFunc : Expr → Option (String × Option Expr)
  | .lockingFuncNoArg t => some (t, none)
  | .lockingFuncArg t n => some (t, some n)
  | _ => none

/-- Modelled from the spec: sqlparser aggregation test used by
SelectExprs.AllAggregation (external to src/). -/
def Expr.isAggregate : Expr → Bool
  | .countStar => true
  | .aggregate _ => true
  | _ => false

/-- Modelled from the spec: the sqlparser pretty-printer sqlparser.String on an
expression (external to src/); only the produced names matter to the planner. -/
def Expr.print : Expr → String
  | .literal v => v
  | .column n => n
  | .countStar => "count(*)"
  | .aggregate n => "aggr" ++ toString n
  | .lockingFuncNoArg t => t
  | .lockingFuncArg t _ => t
  | .otherExpr n => "expr" ++ toString n

/-- Model of a sqlparser.SelectExpr: an aliased expression, a star, or other. -/
inductive SelectExpr where
  | aliased (expr : Expr) (asName : String)
  | star (n : Nat)
  | otherSelectExpr (n : Nat)
deriving DecidableEq

/-- Model of the rowcount / offset expressions of a sqlparser.Limit:
a literal, or some other expression. -/
inductive LimitExpr where
  | lit (val : String)
  | otherLimitExpr (n : Nat)
deriving DecidableEq

/-- Model of sqlparser.Limit. -/
structure Limit where
  offset : Option LimitExpr
  rowcount : Option LimitExpr
deriving DecidableEq

mutual
/-- Model of sqlparser.Select.  WHERE / GROUP BY / HAVING / ORDER BY are kept
as presence flags, which is all select.go inspects of them. -/
inductive Select where
  | mk (sqlCalcFoundRows : Bool) (selectExprs : List SelectExpr)
       (froms : List TableExpr) (hasWhere hasGroupBy hasHaving hasOrderBy : Bool)
       (limit : Option Limit) : Select

/-- Model of sqlparser.TableExpr. -/
inductive TableExpr where
  | aliased (expr : SimpleTableExpr) (asName : String) : TableExpr
  | otherTableExpr (n : Nat) : TableExpr

/-- Model of the expression inside an aliased table expression:
a (possibly qualified) table name or a derived table. -/
inductive SimpleTableExpr where
  | table (name qualifier : String) : SimpleTableExpr
  | derived (sel : Select) : SimpleTableExpr
end

def Select.sqlCalcFoundRows : Select → Bool
  | .mk b _ _ _ _ _ _ _ => b

def Select.selectExprs : Select → List SelectExpr
  | .mk _ es _ _ _ _ _ _ => es

def Select.froms : Select → List TableExpr
  | .mk _ _ fs _ _ _ _ _ => fs

def Select.hasWhere : Select → Bool
  | .mk _ _ _ w _ _ _ _ => w

def Select.hasGroupBy : Select → Bool
  | .mk _ _ _ _ g _ _ _ => g

def Select.hasHaving : Select → Bool
  | .mk _ _ _ _ _ h _ _ => h

def Select.hasOrderBy : Select → Bool
  | .mk _ _ _ _ _ _ o _ => o

def Select.limit : Select → Option Limit
  | .mk _ _ _ _ _ _ _ l => l

/-- Model of sqlparser.SelectStatement: a simple Select or a set operation. -/
inductive SelectStatement where
  | sel (s : Select)
  | setOp (n : Nat)

/-! ## engine primitives (shallow model of the parts used by select.go) -/

/-- Model of engine.Opcode for routes; only DBA is distinguished by select.go. -/
inductive RouteOpcode where
  | dba
  | otherOpcode (n : Nat)
deriving DecidableEq

/-- Model of engine.Route, restricted to the fields select.go reads or writes. -/
structure Route where
  opcode : RouteOpcode
  sysTableTableName : List String
  sysTableTableSchema : List String
  noRoutesSpecialHandling : Bool
deriving DecidableEq

/-- Model of an evalengine compiled expression: the translation of a source
expression (the evalengine itself is external to src/). -/
structure EvalExpr where
  source : Expr
deriving DecidableEq

/-- Model of engine.LockFunc. -/
structure LockFunc where
  typ : String
  lockName : Option EvalExpr
deriving DecidableEq

/-- Model of engine.Primitive, restricted to the variants select.go produces
or inspects. -/
inductive Primitive where
  | route (r : Route)
  | vindexLookup (sendTo : Route) (n : Nat)
  | projection (exprs : List EvalExpr) (cols : List String) (input : Primitive)
  | singleRow
  | sqlCalcFoundRows (limitPrimitive countPrimitive : Primitive)
  | lock (keyspace : String) (targetDestination : List Nat) (fieldQuery : String)
         (lockFunctions : List LockFunc)
  | otherPrimitive (n : Nat)
deriving DecidableEq

/-- Model of vindexes.Keyspace. -/
structure Keyspace where
  name : String
  sharded : Bool
deriving DecidableEq

/-- Planner-side error model.  External errors (parser, analyzer, evalengine,
operator builder, keyspace lookup) are carried as numbered wrapped errors;
VT12001 is the unsupported-construct error built in handleDualSelects; a Go
type-assertion failure is modelled as a distinguished outcome. -/
inductive PErr where
  | vt12001 (msg : String)
  | wrapped (n : Nat)
  | typeAssertionPanic
deriving DecidableEq

/-- Model of the plancontext.VSchema interface plus the external helpers the
planner entry calls through it: keyspace lookups, the parser, the evalengine
translator, the semantic analyzer and the impossible-query formatter. -/
structure VSchema where
  selectedKeyspace : Except Nat Keyspace
  firstSortedKeyspace : Except Nat Keyspace
  parse2 : String → Except Nat SelectStatement
  translate : Expr → Except Nat EvalExpr
  analyze : Select → Except Nat Unit
  impossibleQuery : Select → String

/-- The type of the newBuildSelectPlan pipeline (semantic analysis, operator
building and lowering are external to src/); select.go only plumbs it. -/
def Build : Type := SelectStatement → Except Nat (Primitive × List String)

/-- Model of planbuilder.planResult. -/
structure PlanResult where
  primitive : Primitive
  tablesUsed : List String
deriving DecidableEq

/-! ## isOnlyDual (select.go lines 244-277) -/

/-- The limit checks of isOnlyDual: returns true when the LIMIT clause
disqualifies the statement from dual-only handling. -/
def limitDisqualifies : Option Limit → Bool
  | none => false
  | some l =>
    if l.offset.isSome then true
    else
      match l.rowcount with
      | none => false
      | some (.lit v) => v = "0"
      | some (.otherLimitExpr _) => true

/-- The FROM checks of isOnlyDual: a single aliased table expression naming
the table dual with an empty qualifier. -/
def fromIsDual : List TableExpr → Bool
  | [TableExpr.aliased (SimpleTableExpr.table name qualifier) _] =>
      name = "dual" && qualifier = ""
  | _ => false

/-- Embedding of isOnlyDual. -/
def isOnlyDual (sel : Select) : Bool :=
  if sel.hasWhere || sel.hasGroupBy || sel.hasHaving || sel.hasOrderBy then false
  else if limitDisqualifies sel.limit then false
  else fromIsDual sel.froms

/-! ## handleDualSelects and buildLockingPrimitive (select.go lines 291-360) -/

/-- Outcome of the column walk inside handleDualSelects: fall through to the
general planner (the Go code returns nil, nil), fail with an error, or
finish with the translated expressions, column names and lock functions. -/
inductive DualWalk where
  | fallThrough
  | fail (e : PErr)
  | done (exprs : List EvalExpr) (cols : List String) (lockFunctions : List LockFunc)

/-- Modelled from the spec: sqlparser.String on a whole AliasedExpr
(external to src/), used in the VT12001 message. -/
def printAliasedExpr (e : Expr) (asName : String) : String :=
  if asName = "" then e.print else e.print ++ " as " ++ asName

/-- The engine.LockFunc element built for one locking function: its name
argument, when present, is translated with the evalengine and the
translation error propagates. -/
def lockElem (vs : VSchema) (typ : String) (nameArg : Option Expr) :
    Except PErr LockFunc :=
  match nameArg with
  | none => .ok ⟨typ, none⟩
  | some ne =>
    match vs.translate ne with
    | .error n => .error (.wrapped n)
    | .ok v => .ok ⟨typ, some v⟩

/-- The loop over the projected columns of handleDualSelects.  The boolean
records whether a locking function has already been collected. -/
def dualWalk (vs : VSchema) : List SelectExpr → Bool → DualWalk
  | [], _ => .done [] [] []
  | c :: rest, seenLock =>
    match c with
    | .aliased e asName =>
      match e.lockingFunc with
      | some (typ, nameArg) =>
        match lockElem vs typ nameArg with
        | .error err => .fail err
        | .ok lf =>
          match dualWalk vs rest true with
          | .fallThrough => .fallThrough
          | .fail e2 => .fail e2
          | .done exprs cols lfs => .done exprs cols (lf :: lfs)
      | none =>
        if seenLock then
          .fail (.vt12001 ("LOCK function and other expression: [" ++
            printAliasedExpr e asName ++ "] in same select query"))
        else
          match vs.translate e with
          | .error _ => .fallThrough
          | .ok v =>
            let col := if asName = "" then e.print else asName
            match dualWalk vs rest seenLock with
            | .fallThrough => .fallThrough
            | .fail e2 => .fail e2
            | .done exprs cols lfs => .done (v :: exprs) (col :: cols) lfs
    | _ => .fallThrough

/-- Embedding of buildLockingPrimitive. -/
def buildLockingPrimitive (vs : VSchema) (sel : Select) (lfs : List LockFunc) :
    Except PErr Primitive :=
  match vs.firstSortedKeyspace with
  | .error n => .error (.wrapped n)
  | .ok ks => .ok (.lock ks.name [0] (vs.impossibleQuery sel) lfs)

/-- Embedding of handleDualSelects.  The nil, nil return of the Go code is
the value .ok none. -/
def handleDualSelects (vs : VSchema) (sel : Select) : Except PErr (Option Primitive) :=
  if !isOnlyDual sel then .ok none
  else
    match dualWalk vs sel.selectExprs false with
    | .fallThrough => .ok none
    | .fail e => .error e
    | .done exprs cols lfs =>
      if lfs.isEmpty then .ok (some (.projection exprs cols .singleRow))
      else
        match buildLockingPrimitive vs sel lfs with
        | .error e => .error e
        | .ok p => .ok (some p)

/-! ## SQL_CALC_FOUND_ROWS split (select.go lines 102-182) -/

/-- The count(*) select expression built in buildSQLCalcFoundRowsPlan. -/
def countStarExpr : SelectExpr := .aliased .countStar ""

/-- The re-parsed statement with SQLCalcFoundRows, OrderBy and Limit stripped. -/
def strippedForCount (s : Select) : Select :=
  .mk false s.selectExprs s.froms s.hasWhere s.hasGroupBy s.hasHaving false none

/-- The statement the count half plans: the stripped select with its
select-list replaced by count(*), or, when it has GROUP BY or HAVING, a fresh
select of count(*) from the stripped select as a derived table aliased t. -/
def countSelect (s : Select) : Select :=
  let s2 := strippedForCount s
  if !s2.hasGroupBy && !s2.hasHaving then
    .mk false [countStarExpr] s2.froms s2.hasWhere s2.hasGroupBy s2.hasHaving false none
  else
    .mk false [countStarExpr] [.aliased (.derived s2) "t"] false false false false none

/-- Setting NoRoutesSpecialHandling when the primitive is a Route; the
identity otherwise. -/
def setRouteNRSH : Primitive → Primitive
  | .route r => .route { r with noRoutesSpecialHandling := true }
  | p => p

/-- Embedding of buildSQLCalcFoundRowsPlan.  The build oracle stands for
newBuildSelectPlan; the failed Go type assertion statement2.(*Select) is the
distinguished typeAssertionPanic outcome. -/
def buildSQLCalcFoundRowsPlan (build : Build) (vs : VSchema)
    (originalQuery : String) (sel : Select) :
    Except PErr (Primitive × List String) :=
  match build (.sel sel) with
  | .error n => .error (.wrapped n)
  | .ok (limitPlan, _) =>
    match vs.parse2 originalQuery with
    | .error n => .error (.wrapped n)
    | .ok (.setOp _) => .error .typeAssertionPanic
    | .ok (.sel s2) =>
      match build (.sel (countSelect s2)) with
      | .error n => .error (.wrapped n)
      | .ok (countPlan, tablesUsed) =>
        .ok (.sqlCalcFoundRows limitPlan (setRouteNRSH countPlan), tablesUsed)

/-- Embedding of gen4planSQLCalcFoundRows: semantic analysis of the select,
then the split.  The analyzer is external; its warning recording has no
observable effect in the model. -/
def gen4planSQLCalcFoundRows (build : Build) (vs : VSchema)
    (query : String) (sel : Select) : Except PErr PlanResult :=
  match vs.analyze sel with
  | .error n => .error (.wrapped n)
  | .ok _ =>
    match buildSQLCalcFoundRowsPlan build vs query sel with
    | .error e => .error e
    | .ok (plan, tablesUsed) => .ok ⟨plan, tablesUsed⟩

/-! ## CNF predicate-rewrite retry (select.go lines 184-196, 279-289) -/

/-- Embedding of shouldRetryAfterPredicateRewriting. -/
def shouldRetryAfterPredicateRewriting : Primitive → Bool
  | .route r =>
      r.opcode = RouteOpcode.dba &&
      r.sysTableTableName.isEmpty && r.sysTableTableSchema.isEmpty
  | _ => false

/-- Embedding of gen4PredicateRewrite.  The rewrite oracle stands for
sqlparser.RewritePredicate; none models the fail-safe case where the
rewritten statement is not a SelectStatement. -/
def gen4PredicateRewrite (rewritePredicate : SelectStatement → Option SelectStatement)
    (build : Build) (stmt : SelectStatement) : Option (Primitive × List String) :=
  match rewritePredicate stmt with
  | none => none
  | some rewritten =>
    match build rewritten with
    | .error _ => none
    | .ok (plan2, op) =>
      if !shouldRetryAfterPredicateRewriting plan2 then some (plan2, op) else none

/-! ## gen4SelectStmtPlanner (select.go lines 33-100) -/

/-- Modelled from the spec: sqlparser SelectExprs.AllAggregation
(external to src/). -/
def allAggregation (cs : List SelectExpr) : Bool :=
  cs.all fun c =>
    match c with
    | .aliased e _ => e.isAggregate
    | _ => false

/-- Setting NoRoutesSpecialHandling on the outermost Route, or on the SendTo
route of a VindexLookup (the empty-set guard of gen4SelectStmtPlanner). -/
def setNoRoutesSpecialHandling : Primitive → Primitive
  | .route r => .route { r with noRoutesSpecialHandling := true }
  | .vindexLookup sendTo n => .vindexLookup { sendTo with noRoutesSpecialHandling := true } n
  | p => p

/-- The tail of gen4SelectStmtPlanner after the dual and
SQL_CALC_FOUND_ROWS branches: build, optional CNF retry, and the empty-set
guard for simple selects.  selOpt carries the (possibly already mutated)
simple select when the statement is one, none for set operations. -/
def planAfterDual (build : Build)
    (rewritePredicate : SelectStatement → Option SelectStatement)
    (stmt : SelectStatement) (selOpt : Option Select) :
    Except PErr PlanResult × SelectStatement :=
  match build stmt with
  | .error n => (.error (.wrapped n), stmt)
  | .ok (plan, tablesUsed) =>
    let retried : Option (Primitive × List String) :=
      if shouldRetryAfterPredicateRewriting plan then
        gen4PredicateRewrite rewritePredicate build stmt
      else none
    match retried with
    | some (p2, t2) => (.ok ⟨p2, t2⟩, stmt)
    | none =>
      match selOpt with
      | none => (.ok ⟨plan, tablesUsed⟩, stmt)
      | some sel =>
        if isOnlyDual sel || (!sel.hasGroupBy && allAggregation sel.selectExprs) then
          (.ok ⟨setNoRoutesSpecialHandling plan, tablesUsed⟩, stmt)
        else
          (.ok ⟨plan, tablesUsed⟩, stmt)

/-- Clearing the SQLCalcFoundRows flag in place (the sel.SQLCalcFoundRows =
false mutation of gen4SelectStmtPlanner). -/
def clearSQLCalcFoundRows (s : Select) : Select :=
  .mk false s.selectExprs s.froms s.hasWhere s.hasGroupBy s.hasHaving s.hasOrderBy s.limit

/-- Embedding of gen4SelectStmtPlanner.  The statement is threaded through
and returned alongside the result so that the in-place mutations the Go code
performs on the caller's AST are observable. -/
def gen4SelectStmtPlanner (build : Build)
    (rewritePredicate : SelectStatement → Option SelectStatement)
    (vs : VSchema) (query : String) (stmt : SelectStatement) :
    Except PErr PlanResult × SelectStatement :=
  match stmt with
  | .setOp _ => planAfterDual build rewritePredicate stmt none
  | .sel sel =>
    match handleDualSelects vs sel with
    | .error e => (.error e, stmt)
    | .ok (some p) =>
      let used :=
        match vs.selectedKeyspace with
        | .ok ks => ks.name ++ ".dual"
        | .error _ => "dual"
      (.ok ⟨p, [used]⟩, stmt)
    | .ok none =>
      if sel.sqlCalcFoundRows && sel.limit.isSome then
        (gen4planSQLCalcFoundRows build vs query sel, stmt)
      else
        let sel2 := clearSQLCalcFoundRows sel
        planAfterDual build rewritePredicate (.sel sel2) (some sel2)

/-! ## Binary vindex (binary.go) -/

/-- Model of the sqltypes value types the Binary vindex distinguishes. -/
inductive VType where
  | varBinary
  | int64
  | nullType
  | expression
  | otherType (n : Nat)
deriving DecidableEq

/-- Modelled from the spec: sqltypes.Value (external to src/) — a type tag
plus raw bytes; a none byte field models a Go nil byte slice. -/
structure Value where
  typ : VType
  val : Option (List Nat)
deriving DecidableEq

/-- Modelled from the spec: sqltypes.MakeTrusted (external to src/). -/
def MakeTrusted (t : VType) (b : Option (List Nat)) : Value := ⟨t, b⟩

/-- Modelled from the spec: sqltypes.Value.ToBytes (external to src/) —
fails on expression values, otherwise returns the raw bytes. -/
def Value.toBytes (v : Value) : Except String (Option (List Nat)) :=
  match v.typ with
  | .expression => .error "expression cannot be converted to bytes"
  | _ => .ok v.val

/-- Model of key.ShardDestination, restricted to what binary.go produces. -/
inductive ShardDestination where
  | destinationKeyspaceID (b : Option (List Nat))
  | destinationKeyRange (startKsId endKsId : Option (List Nat))
deriving DecidableEq

/-- Embedding of Binary.Hash: the raw bytes of the value. -/
def binaryHash (id : Value) : Except String (Option (List Nat)) :=
  id.toBytes

/-- Embedding of Binary.Map.  As in the Go code, the destinations built
before a failing row are returned together with the error. -/
def binaryMap : List Value → List ShardDestination × Option String
  | [] => ([], none)
  | id :: rest =>
    match binaryHash id with
    | .error e => ([], some e)
    | .ok b =>
      let (out, err) := binaryMap rest
      (ShardDestination.destinationKeyspaceID b :: out, err)

/-- Embedding of Binary.ReverseMap: per-row failure on a nil keyspace id,
otherwise a VarBinary value of the keyspace-id bytes. -/
def binaryReverseMap : List (Option (List Nat)) → Except String (List Value)
  | [] => .ok []
  | none :: _ => .error "Binary.ReverseMap: keyspaceId is nil"
  | some k :: rest =>
    match binaryReverseMap rest with
    | .error e => .error e
    | .ok vs => .ok (MakeTrusted .varBinary (some k) :: vs)

/-! ## StatefulConnection (stateful_connection.go) -/

/-- Error codes crossing the gRPC boundary. -/
inductive Code where
  | aborted
  | canceled
  | failedPrecondition
  | unknownCode
deriving DecidableEq

/-- A vterrors error: code plus message. -/
structure VtError where
  code : Code
  msg : String
deriving DecidableEq

/-- Model of the underlying pooled backend connection (connpool.PooledConn
is external to src/): closed flag, the currently applied setting (pointer
identity modelled by a numeric id) and the backend taint mark. -/
structure DBConn where
  closed : Bool
  setting : Option Nat
  backendTainted : Bool
deriving DecidableEq

/-- Model of tx.Properties, restricted to the fields stateful_connection.go
reads. -/
structure TxProps where
  conclusion : String
  effectiveCaller : Option String
  immediateCaller : Option String
  startTime : Nat
deriving DecidableEq

/-- Model of the reserved Properties of a connection. -/
structure RProps where
  effectiveCaller : Option String
  immediateCaller : Option String
  startTime : Nat
deriving DecidableEq

/-- Observable side effects of the connection manager: stats counter
updates, timing records, pool hooks and backend calls, in order. -/
inductive StatEvent where
  | userActiveReservedAdd (label : String) (delta : Int)
  | userReservedAdd (label : String) (delta : Int)
  | userReservedTimesNsAdd (label : String) (ns : Int)
  | reservedTimingRecord (reason : String) (startTime : Nat)
  | unregister (connID : Nat) (reason : String)
  | recycle
  | markAsNotInUse (updateTime : Bool)
  | backendTaint
  | backendKill (reason : String) (elapsed : Nat)
  | checkMySQL
deriving DecidableEq

/-- Modelled from the spec: the userLabelDisabled sentinel (declared outside
src/ in the tabletserver package). -/
def userLabelDisabled : String := "UserLabelDisabled"

/-- The state of a StatefulConnection together with its environment:
the optional backend connection, transaction and reserved properties, the
taint flag, the pool back-reference (modelled by its presence), the
SkipUserMetrics configuration, the current time and the event log. -/
structure SC where
  poolPresent : Bool
  dbConn : Option DBConn
  connID : Nat
  txProps : Option TxProps
  reservedProps : Option RProps
  tainted : Bool
  skipUserMetrics : Bool
  now : Nat
  log : List StatEvent
deriving DecidableEq

/-- Appends one observable event. -/
def emit (sc : SC) (e : StatEvent) : SC := { sc with log := sc.log ++ [e] }

/-- Embedding of IsClosed: no backend connection, or a closed backend. -/
def SC.isClosed (sc : SC) : Bool :=
  match sc.dbConn with
  | none => true
  | some c => c.closed

/-- Embedding of getUsername: the principal of the effective caller when
non-empty, else the username of the immediate caller. -/
def getUsername (rp : RProps) : String :=
  let principal := rp.effectiveCaller.getD ""
  if principal = "" then rp.immediateCaller.getD "" else principal

/-- An error produced by an operation on the connection: either a vterrors
error built in stateful_connection.go, or a backend error passed through
(with its connection-error classification). -/
inductive ExecError where
  | vt (e : VtError)
  | backend (isConnErr : Bool) (n : Nat)
deriving DecidableEq

/-- Embedding of Exec.  ctxDone models ctx.Done() being ready; the backend
oracle models dbConn.Conn.ExecOnce, its error carrying the
sqlerror.IsConnErr classification. -/
def Exec (ctxDone : Bool) (backend : Except (Bool × Nat) Nat) (sc : SC) :
    Except ExecError Nat × SC :=
  if sc.isClosed then
    match sc.txProps with
    | some tp =>
      (.error (.vt ⟨.aborted, "transaction was aborted: " ++ tp.conclusion⟩), sc)
    | none => (.error (.vt ⟨.aborted, "connection was aborted"⟩), sc)
  else
    match backend with
    | .ok r => (.ok r, sc)
    | .error (isConnErr, n) =>
      if isConnErr then
        if ctxDone then (.error (.backend true n), sc)
        else (.error (.backend true n), emit sc .checkMySQL)
      else (.error (.backend false n), sc)

/-- Embedding of execWithRetry: CANCELED on a closed connection, otherwise
the backend result (the session-state-changes string). -/
def execWithRetry (backend : Except Nat String) (sc : SC) :
    Except ExecError String × SC :=
  if sc.isClosed then
    (.error (.vt ⟨.canceled, "connection is closed"⟩), sc)
  else
    match backend with
    | .error n => (.error (.backend false n), sc)
    | .ok s => (.ok s, sc)

/-- Embedding of FetchNext: CANCELED on a closed connection, otherwise the
backend result. -/
def FetchNext (backend : Except Nat Nat) (sc : SC) : Except ExecError Nat × SC :=
  if sc.isClosed then
    (.error (.vt ⟨.canceled, "connection is closed"⟩), sc)
  else
    match backend with
    | .error n => (.error (.backend false n), sc)
    | .ok r => (.ok r, sc)

/-- Embedding of logReservedConn: nothing when the connection is not
reserved; otherwise the timing record and the counter updates, which in the
SkipUserMetrics case reduce to the active-reserved decrement under the
disabled label. -/
def logReservedConn (reason : String) (sc : SC) : SC :=
  match sc.reservedProps with
  | none => sc
  | some rp =>
    let sc := emit sc (.reservedTimingRecord reason rp.startTime)
    if sc.skipUserMetrics then
      emit sc (.userActiveReservedAdd userLabelDisabled (-1))
    else
      let u := getUsername rp
      let sc := emit sc (.userActiveReservedAdd u (-1))
      let sc := emit sc (.userReservedAdd u 1)
      emit sc (.userReservedTimesNsAdd u (Int.ofNat (sc.now - rp.startTime)))

/-- Embedding of ReleaseString: a no-op on a nulled dbConn; otherwise
unregister from the pool (when there is one), recycle the backend, null out
the connection and log the reserved-connection stats. -/
def ReleaseString (reason : String) (sc : SC) : SC :=
  match sc.dbConn with
  | none => sc
  | some _ =>
    let sc := if sc.poolPresent then emit sc (.unregister sc.connID reason) else sc
    let sc := emit sc .recycle
    let sc := { sc with dbConn := none }
    logReservedConn reason sc

/-- Embedding of the private unlock: a no-op on a nulled dbConn; a forced
release when the backend is closed; otherwise park in the pool. -/
def unlock (updateTime : Bool) (sc : SC) : SC :=
  match sc.dbConn with
  | none => sc
  | some c =>
    if c.closed then ReleaseString "unlocked closed connection" sc
    else emit sc (.markAsNotInUse updateTime)

/-- Embedding of Unlock: the creation time is not updated while in a
transaction. -/
def Unlock (sc : SC) : SC := unlock (!sc.txProps.isSome) sc

/-- Embedding of UnlockUpdateTime. -/
def UnlockUpdateTime (sc : SC) : SC := unlock true sc

/-- Embedding of Taint: FAILED_PRECONDITION on a nulled dbConn or an already
tainted connection; otherwise record the reserved properties from the
context caller ids, set the taint flags, and bump the active-reserved
counter under the user label (or the disabled sentinel). -/
def Taint (ctxEffective ctxImmediate : Option String) (sc : SC) :
    Except VtError Unit × SC :=
  match sc.dbConn with
  | none => (.error ⟨.failedPrecondition, "connection is closed"⟩, sc)
  | some c =>
    if sc.tainted then
      (.error ⟨.failedPrecondition, "connection is already reserved"⟩, sc)
    else
      let rp : RProps := ⟨ctxEffective, ctxImmediate, sc.now⟩
      let sc := { sc with
        tainted := true
        reservedProps := some rp
        dbConn := some { c with backendTainted := true } }
      let sc := emit sc .backendTaint
      if sc.skipUserMetrics then
        (.ok (), emit sc (.userActiveReservedAdd userLabelDisabled 1))
      else
        (.ok (), emit sc (.userActiveReservedAdd (getUsername rp) 1))

/-- Embedding of CleanTxState. -/
def CleanTxState (sc : SC) : SC := { sc with txProps := none }

/-- The outcome of a Go call that may dereference a nil pointer: a value, or
a runtime panic. -/
inductive GoResult (α : Type) where
  | ok (a : α)
  | panicked
deriving DecidableEq

/-- Embedding of ApplySetting.  The backend apply is an oracle (applyErr);
reading sc.dbConn.Conn on a nulled dbConn is a nil dereference, modelled as
the panicked outcome. -/
def ApplySetting (setting : Option Nat) (applyErr : Option Nat) (sc : SC) :
    GoResult (Bool × Option Nat) × SC :=
  match sc.dbConn with
  | none => (.panicked, sc)
  | some c =>
    if c.setting = setting then (.ok (false, none), sc)
    else
      match applyErr with
      | some n => (.ok (true, some n), sc)
      | none => (.ok (true, none), { sc with dbConn := some { c with setting := setting } })

/-- Embedding of Kill: forwards to the backend kill; on a nulled dbConn this
is a nil dereference, modelled as the panicked outcome. -/
def Kill (reason : String) (elapsed : Nat) (killErr : Option Nat) (sc : SC) :
    GoResult (Option Nat) × SC :=
  match sc.dbConn with
  | none => (.panicked, sc)
  | some _ => (.ok killErr, emit sc (.backendKill reason elapsed))

/-- Time passing between operations. -/
def tick (dt : Nat) (sc : SC) : SC := { sc with now := sc.now + dt }

/-- The number of unregister calls recorded in the log. -/
def countUnregister (log : List StatEvent) : Nat :=
  (log.filter fun e =>
    match e with
    | .unregister _ _ => true
    | _ => false).length

/-- The number of UserReservedCount increments recorded in the log. -/
def countUserReservedAdd (log : List StatEvent) : Nat :=
  (log.filter fun e =>
    match e with
    | .userReservedAdd _ _ => true
    | _ => false).length

/-- The number of UserReservedTimesNs additions recorded in the log. -/
def countUserReservedTimesNsAdd (log : List StatEvent) : Nat :=
  (log.filter fun e =>
    match e with
    | .userReservedTimesNsAdd _ _ => true
    | _ => false).length

/-- The number of UserActiveReservedCount updates with a given label and
delta recorded in the log. -/
def countActiveReserved (label : String) (delta : Int) (log : List StatEvent) : Nat :=
  (log.filter fun e =>
    match e with
    | .userActiveReservedAdd l d => l = label && d = delta
    | _ => false).length

/-! ## Concrete fixtures used by witnesses and counterexamples -/

/-- FROM dual, as parsed: one aliased table expression naming dual. -/
def dualFrom : List TableExpr := [.aliased (.table "dual" "") ""]

/-- SELECT 1 FROM dual LIMIT 0. -/
def dualLimit0 : Select :=
  .mk false [.aliased (.literal "1") ""] dualFrom false false false false
    (some ⟨none, some (.lit "0")⟩)

/-- SELECT 1 FROM dual LIMIT 1. -/
def dualLimit1 : Select :=
  .mk false [.aliased (.literal "1") ""] dualFrom false false false false
    (some ⟨none, some (.lit "1")⟩)

/-- A VSchema whose oracles are all trivial; only the shapes the planner
entry inspects matter to the claims using it. -/
def trivialVS : VSchema where
  selectedKeyspace := .error 0
  firstSortedKeyspace := .ok ⟨"ks1", false⟩
  parse2 := fun _ => .error 0
  translate := fun e => .ok ⟨e⟩
  analyze := fun _ => .ok ()
  impossibleQuery := fun _ => "impossible"

/-- A non-DBA route primitive over table t1. -/
def t1Plan : Primitive := .route ⟨.otherOpcode 0, [], [], false⟩

/-- A build oracle returning a fixed non-DBA route over table t1. -/
def buildT1 : Build := fun _ => .ok (t1Plan, ["t1"])

/-- A predicate-rewrite oracle standing for the fail-safe case. -/
def noRewrite : SelectStatement → Option SelectStatement := fun _ => none

/-- SELECT SQL_CALC_FOUND_ROWS a FROM t1 (no limit). -/
def scfrNoLimitSel : Select :=
  .mk true [.aliased (.column "a") ""] [.aliased (.table "t1" "") ""]
    false false false false none

/-- The SQLCalcFoundRows flag of a statement, when it is a simple select. -/
def SelectStatement.scfrFlag : SelectStatement → Bool
  | .sel s => s.sqlCalcFoundRows
  | .setOp _ => false

/-- A DBA route with both sys-table filters empty: eligible for CNF retry. -/
def dbaRoutePlan : Primitive := .route ⟨.dba, [], [], false⟩

/-- A predicate-rewrite oracle that returns the statement itself. -/
def rwId : SelectStatement → Option SelectStatement := fun s => some s

/-- SELECT SQL_CALC_FOUND_ROWS a FROM t1 LIMIT 10. -/
def scfrSel : Select :=
  .mk true [.aliased (.column "a") ""] [.aliased (.table "t1" "") ""]
    false false false false (some ⟨none, some (.lit "10")⟩)

/-- The trivial VSchema with a parser oracle that yields scfrSel. -/
def parseVS : VSchema := { trivialVS with parse2 := fun _ => .ok (.sel scfrSel) }

/-- A projected column that is an aliased locking function. -/
def isLockCol : SelectExpr → Bool
  | .aliased e _ => e.lockingFunc.isSome
  | _ => false

/-- A projected column that is aliased but not a locking function. -/
def isNonLockAliased : SelectExpr → Bool
  | .aliased e _ => e.lockingFunc.isNone
  | _ => false

/-- A column that is aliased, not a locking function, and whose expression
the evalengine translates successfully. -/
def nonLockTranslatable (vs : VSchema) (c : SelectExpr) : Prop :=
  ∃ e asName v, c = SelectExpr.aliased e asName ∧
    e.lockingFunc = none ∧ vs.translate e = .ok v

/-- SELECT 1, GET_LOCK(...) FROM dual. -/
def dualLockSel : Select :=
  .mk false [.aliased (.literal "1") "", .aliased (.lockingFuncNoArg "get_lock") ""]
    dualFrom false false false false none

/-- An INT64 value with raw bytes "1". -/
def intOne : Value := ⟨.int64, some [49]⟩

/-- A VarBinary value with bytes 0x00 0x01. -/
def vbVal : Value := ⟨.varBinary, some [0, 1]⟩

/-- A healthy backend connection with no setting applied. -/
def freshConn : DBConn := ⟨false, none, false⟩

/-- An in-use stateful connection: in the pool, healthy backend, no
transaction, not reserved, user metrics enabled. -/
def baseSC : SC := ⟨true, some freshConn, 7, none, none, false, false, 100, []⟩

/-- The base connection after its backend has been released. -/
def releasedSC : SC := { baseSC with dbConn := none }

/-- The base connection with SkipUserMetrics set. -/
def skipSC : SC := { baseSC with skipUserMetrics := true }

/-! ## C1: isOnlyDual and the LIMIT rowcount literal -/

/-- Claim C1 counterexample: the code does the opposite of the claim.  For a
simple select on dual with no other clauses and a LIMIT with nil offset, a
rowcount literal "0" disqualifies the statement (isOnlyDual is false), and
the literal "1" still qualifies it (isOnlyDual is true). -/
theorem isOnlyDual_limit_zero_counterexample :
    isOnlyDual dualLimit0 = false ∧ isOnlyDual dualLimit1 = true := by
  constructor <;> rfl

/-- Claim C1, amended: for every simple Select on the dual table with no
WHERE, GROUP BY, HAVING or ORDER BY clause and a LIMIT whose offset is nil,
isOnlyDual treats a rowcount that is the literal "0" as disqualifying the
statement, and a rowcount that is any other literal as still qualifying it. -/
theorem isOnlyDual_limit_literal (sel : Select) (lim : Limit)
    (hW : sel.hasWhere = false) (hG : sel.hasGroupBy = false)
    (hH : sel.hasHaving = false) (hO : sel.hasOrderBy = false)
    (hL : sel.limit = some lim) (hOff : lim.offset = none)
    (hF : fromIsDual sel.froms = true) :
    (lim.rowcount = some (LimitExpr.lit "0") → isOnlyDual sel = false) ∧
    (∀ v, v ≠ "0" → lim.rowcount = some (LimitExpr.lit v) → isOnlyDual sel = true) := by
  constructor
  · intro hR
    simp [isOnlyDual, hW, hG, hH, hO, hL, limitDisqualifies, hOff, hR]
  · intro v hv hR
    simp [isOnlyDual, hW, hG, hH, hO, hL, limitDisqualifies, hOff, hR, hv, hF]

/-- Claim C1 witness: the amended theorem applied to SELECT 1 FROM dual
LIMIT 0 and to SELECT 1 FROM dual LIMIT 1. -/
theorem isOnlyDual_limit_literal_witness :
    isOnlyDual dualLimit0 = false ∧ isOnlyDual dualLimit1 = true :=
  ⟨(isOnlyDual_limit_literal dualLimit0 ⟨none, some (LimitExpr.lit "0")⟩
      rfl rfl rfl rfl rfl rfl rfl).1 rfl,
   (isOnlyDual_limit_literal dualLimit1 ⟨none, some (LimitExpr.lit "1")⟩
      rfl rfl rfl rfl rfl rfl rfl).2 "1" (by decide) rfl⟩

/-! ## C7: the planner mutates the incoming AST -/

/-- Claim C7 counterexample: planning SELECT SQL_CALC_FOUND_ROWS a FROM t1
(no limit) leaves the caller with a statement whose SQLCalcFoundRows flag
has been cleared in place, so the caller's statement is structurally
changed. -/
theorem planner_mutates_caller_statement :
    (gen4SelectStmtPlanner buildT1 noRewrite trivialVS "q" (.sel scfrNoLimitSel)).2 ≠
      SelectStatement.sel scfrNoLimitSel :=
  fun h => Bool.noConfusion (show false = true from congrArg SelectStatement.scfrFlag h)

/-- The statement component of planAfterDual is always the statement it was
given: the post-dual tail of the planner performs no further mutation that
is visible in the source file. -/
theorem planAfterDual_snd (build : Build)
    (rewritePredicate : SelectStatement → Option SelectStatement)
    (stmt : SelectStatement) (selOpt : Option Select) :
    (planAfterDual build rewritePredicate stmt selOpt).2 = stmt := by
  unfold planAfterDual
  rcases build stmt with n | ⟨plan, tablesUsed⟩
  · rfl
  · simp only []
    rcases hr : (if shouldRetryAfterPredicateRewriting plan then
        gen4PredicateRewrite rewritePredicate build stmt else none) with _ | ⟨p2, t2⟩
    · rcases selOpt with _ | sel
      · simp [hr]
      · simp [hr]
        split <;> rfl
    · simp [hr]

/-- Claim C7, amended: the planner either returns the caller's statement
unchanged, or — precisely when the statement is a simple Select that does
not take the dual shortcut and does not enter the SQL_CALC_FOUND_ROWS
split — returns it with the SQLCalcFoundRows flag cleared in place, all
other fields untouched. -/
theorem planner_statement_mutation (build : Build)
    (rewritePredicate : SelectStatement → Option SelectStatement)
    (vs : VSchema) (q : String) (stmt : SelectStatement) :
    ((gen4SelectStmtPlanner build rewritePredicate vs q stmt).2 = stmt ∨
      ∃ sel, stmt = SelectStatement.sel sel ∧
        (gen4SelectStmtPlanner build rewritePredicate vs q stmt).2 =
          SelectStatement.sel (clearSQLCalcFoundRows sel)) ∧
    (∀ s : Select, clearSQLCalcFoundRows s =
      Select.mk false s.selectExprs s.froms s.hasWhere s.hasGroupBy
        s.hasHaving s.hasOrderBy s.limit) := by
  refine ⟨?_, fun s => rfl⟩
  match stmt with
  | .setOp n =>
    left
    exact planAfterDual_snd build rewritePredicate (.setOp n) none
  | .sel sel =>
    unfold gen4SelectStmtPlanner
    rcases hd : handleDualSelects vs sel with e | p
    · left; simp [hd]
    · rcases p with _ | p
      · cases hs : sel.sqlCalcFoundRows && sel.limit.isSome
        · right
          exact ⟨sel, rfl, by simp [hd, hs, planAfterDual_snd]⟩
        · left; simp [hd, hs]
      · left; simp [hd]

/-! ## C5: CNF predicate-rewrite retry -/

/-- Claim C5: a plan is eligible for the CNF retry iff it is a Route with
Opcode DBA and both sys-table filters empty; the rewrite step adopts the
rebuilt plan exactly when the rebuild succeeds and the new plan is no
longer eligible, and the planner keeps the original plan when the rebuild
errors or the new plan is still eligible. -/
theorem cnf_retry_eligibility_and_adoption
    (rewritePredicate : SelectStatement → Option SelectStatement) (build : Build)
    (stmt : SelectStatement) :
    (∀ p : Primitive, shouldRetryAfterPredicateRewriting p = true ↔
      ∃ r : Route, p = .route r ∧ r.opcode = .dba ∧
        r.sysTableTableName = [] ∧ r.sysTableTableSchema = []) ∧
    (∀ p2 t2, gen4PredicateRewrite rewritePredicate build stmt = some (p2, t2) →
      ∃ rewritten, rewritePredicate stmt = some rewritten ∧
        build rewritten = .ok (p2, t2) ∧
        shouldRetryAfterPredicateRewriting p2 = false) ∧
    (∀ rewritten p2 t2, rewritePredicate stmt = some rewritten →
      build rewritten = .ok (p2, t2) →
      shouldRetryAfterPredicateRewriting p2 = true →
      gen4PredicateRewrite rewritePredicate build stmt = none) ∧
    (∀ rewritten n, rewritePredicate stmt = some rewritten →
      build rewritten = .error n →
      gen4PredicateRewrite rewritePredicate build stmt = none) ∧
    (∀ selOpt plan tu p2 t2, build stmt = .ok (plan, tu) →
      shouldRetryAfterPredicateRewriting plan = true →
      gen4PredicateRewrite rewritePredicate build stmt = some (p2, t2) →
      planAfterDual build rewritePredicate stmt selOpt = (.ok ⟨p2, t2⟩, stmt)) ∧
    (∀ plan tu, build stmt = .ok (plan, tu) →
      shouldRetryAfterPredicateRewriting plan = true →
      gen4PredicateRewrite rewritePredicate build stmt = none →
      (planAfterDual build rewritePredicate stmt none).1 = .ok ⟨plan, tu⟩) := by
  refine ⟨?_, ?_, ?_, ?_, ?_, ?_⟩
  · intro p
    cases p <;> simp [shouldRetryAfterPredicateRewriting, List.isEmpty_iff, and_assoc]
  · intro p2 t2 h
    unfold gen4PredicateRewrite at h
    rcases hrw : rewritePredicate stmt with _ | rewritten
    · simp only [hrw] at h
      exact Option.noConfusion h
    · simp only [hrw] at h
      rcases hb : build rewritten with n | ⟨plan2, op⟩
      · simp only [hb] at h
        exact Option.noConfusion h
      · simp only [hb] at h
        cases hs : shouldRetryAfterPredicateRewriting plan2
        · simp only [hs] at h
          simp at h
          exact ⟨rewritten, rfl, by rw [hb, h.1, h.2], by rw [← h.1]; exact hs⟩
        · simp only [hs] at h
          simp at h
  · intro rewritten p2 t2 hrw hb hs
    unfold gen4PredicateRewrite
    simp only [hrw, hb, hs]
    rfl
  · intro rewritten n hrw hb
    unfold gen4PredicateRewrite
    simp only [hrw, hb]
  · intro selOpt plan tu p2 t2 hb hs hg
    unfold planAfterDual
    simp only [hb, hs, hg, if_true]
  · intro plan tu hb hs hg
    unfold planAfterDual
    simp only [hb, hs, hg, if_true]

/-- Claim C5 witness: the adoption-soundness part applied to a concrete
rewrite oracle and build oracle for which the retry adopts a non-DBA route
over t1. -/
theorem cnf_retry_witness :
    ∃ rewritten, rwId (SelectStatement.setOp 0) = some rewritten ∧
      buildT1 rewritten = .ok (t1Plan, ["t1"]) ∧
      shouldRetryAfterPredicateRewriting t1Plan = false :=
  (cnf_retry_eligibility_and_adoption rwId buildT1 (.setOp 0)).2.1 t1Plan ["t1"] rfl

/-! ## C4: the SQL_CALC_FOUND_ROWS split -/

/-- Claim C4: for a simple Select with SQLCalcFoundRows set and a non-nil
Limit that does not take the dual shortcut, the planner dispatches to the
SQL_CALC_FOUND_ROWS split; a successful split yields a SQLCalcFoundRows
primitive whose limit half plans the original select and whose count half
plans the re-parsed original query stripped of SQLCalcFoundRows, OrderBy
and Limit — its select-list a single count(*) when the select has neither
GROUP BY nor HAVING, otherwise the stripped select wrapped as a derived
table aliased t with count(*) selected from it — with
NoRoutesSpecialHandling forced to true when the count primitive is a
Route, and the tables-used being those of the count plan. -/
theorem sqlCalcFoundRows_split (build : Build)
    (rewritePredicate : SelectStatement → Option SelectStatement)
    (vs : VSchema) (q : String) (sel : Select)
    (hSC : sel.sqlCalcFoundRows = true) (hLim : sel.limit.isSome = true)
    (hDual : handleDualSelects vs sel = .ok none) :
    (gen4SelectStmtPlanner build rewritePredicate vs q (.sel sel)).1 =
      gen4planSQLCalcFoundRows build vs q sel ∧
    (∀ p tu, buildSQLCalcFoundRowsPlan build vs q sel = .ok (p, tu) →
      ∃ limitPlan tu0 s2 countPlan,
        build (.sel sel) = .ok (limitPlan, tu0) ∧
        vs.parse2 q = .ok (.sel s2) ∧
        build (.sel (countSelect s2)) = .ok (countPlan, tu) ∧
        p = .sqlCalcFoundRows limitPlan (setRouteNRSH countPlan)) ∧
    (∀ s : Select, s.hasGroupBy = false → s.hasHaving = false →
      countSelect s = Select.mk false [SelectExpr.aliased Expr.countStar ""]
        s.froms s.hasWhere false false false none) ∧
    (∀ s : Select, (s.hasGroupBy || s.hasHaving) = true →
      countSelect s = Select.mk false [SelectExpr.aliased Expr.countStar ""]
        [TableExpr.aliased (SimpleTableExpr.derived
          (Select.mk false s.selectExprs s.froms s.hasWhere s.hasGroupBy
            s.hasHaving false none)) "t"]
        false false false false none) ∧
    (∀ r : Route, setRouteNRSH (.route r) =
      .route ⟨r.opcode, r.sysTableTableName, r.sysTableTableSchema, true⟩) ∧
    (∀ e c i, setRouteNRSH (.projection e c i) = .projection e c i) ∧
    (∀ l c, setRouteNRSH (.sqlCalcFoundRows l c) = .sqlCalcFoundRows l c) := by
  refine ⟨?_, ?_, ?_, ?_, ?_, fun e c i => rfl, fun l c => rfl⟩
  · unfold gen4SelectStmtPlanner
    simp only [hDual, hSC, hLim, Bool.and_self, if_true]
  · intro p tu h
    unfold buildSQLCalcFoundRowsPlan at h
    rcases hb1 : build (.sel sel) with n | ⟨limitPlan, tu0⟩
    · simp only [hb1] at h
      exact Except.noConfusion h
    · simp only [hb1] at h
      rcases hp : vs.parse2 q with n | stmt2
      · simp only [hp] at h
        exact Except.noConfusion h
      · simp only [hp] at h
        rcases stmt2 with s2 | n
        · rcases hb2 : build (.sel (countSelect s2)) with n | ⟨countPlan, tu2⟩
          · simp only [hb2] at h
            exact Except.noConfusion h
          · simp only [hb2] at h
            simp at h
            exact ⟨limitPlan, tu0, s2, countPlan, rfl, rfl,
              by rw [hb2, h.2], by rw [h.1]⟩
        · exact Except.noConfusion h
  · intro s hG hH
    cases s with
    | mk scfr es fs w g hv o l =>
      simp only [Select.hasGroupBy] at hG
      simp only [Select.hasHaving] at hH
      subst hG
      subst hH
      rfl
  · intro s hGH
    cases s with
    | mk scfr es fs w g hv o l =>
      simp only [Select.hasGroupBy, Select.hasHaving] at hGH
      rcases Bool.or_eq_true_iff.mp hGH with hG | hH
      · subst hG
        rfl
      · subst hH
        cases g <;> rfl
  · intro r
    rfl

/-- Claim C4 witness: the split applied to SELECT SQL_CALC_FOUND_ROWS a
FROM t1 LIMIT 10 with concrete build and parse oracles. -/
theorem sqlCalcFoundRows_split_witness :
    ∃ limitPlan tu0 s2 countPlan,
      buildT1 (.sel scfrSel) = .ok (limitPlan, tu0) ∧
      parseVS.parse2 "q" = .ok (.sel s2) ∧
      buildT1 (.sel (countSelect s2)) = .ok (countPlan, ["t1"]) ∧
      Primitive.sqlCalcFoundRows t1Plan (.route ⟨.otherOpcode 0, [], [], true⟩) =
        .sqlCalcFoundRows limitPlan (setRouteNRSH countPlan) :=
  (sqlCalcFoundRows_split buildT1 noRewrite parseVS "q" scfrSel rfl rfl rfl).2.1
    (.sqlCalcFoundRows t1Plan (.route ⟨.otherOpcode 0, [], [], true⟩)) ["t1"] rfl

/-! ## C10: locking functions in dual-only selects -/

/-- Walking translatable non-locking columns in front of a tail leaves the
collected lock functions exactly those of the tail. -/
theorem dualWalk_nonlock_front (vs : VSchema) (cs₁ cs₂ : List SelectExpr)
    (h : ∀ c ∈ cs₁, nonLockTranslatable vs c)
    (ex : List EvalExpr) (cols : List String) (lfs : List LockFunc)
    (ht : dualWalk vs cs₂ false = .done ex cols lfs) :
    ∃ ex2 cols2, dualWalk vs (cs₁ ++ cs₂) false = .done ex2 cols2 lfs := by
  induction cs₁ with
  | nil => exact ⟨ex, cols, ht⟩
  | cons c rest ih =>
    obtain ⟨e, asName, v, hc, hnl, htr⟩ := h c (List.mem_cons_self c rest)
    obtain ⟨ex2, cols2, hrest⟩ := ih fun c2 hc2 => h c2 (List.mem_cons_of_mem c hc2)
    subst hc
    refine ⟨v :: ex2, (if asName = "" then e.print else asName) :: cols2, ?_⟩
    show dualWalk vs (SelectExpr.aliased e asName :: (rest ++ cs₂)) false = _
    unfold dualWalk
    simp only [hnl, htr, hrest, Bool.false_eq_true, if_false]

/-- A VT12001 failure of the column walk can only arise from a locking
column occurring before a non-locking aliased column (or, with the lock
flag pre-set, from any non-locking aliased column). -/
theorem dualWalk_vt12001_split (vs : VSchema) :
    ∀ (cs : List SelectExpr) (seen : Bool) (m : String),
    dualWalk vs cs seen = .fail (.vt12001 m) →
    (seen = true ∧ ∃ l₁ cOther l₂, cs = l₁ ++ cOther :: l₂ ∧
      isNonLockAliased cOther = true) ∨
    (∃ l₁ cLock l₂ cOther l₃, cs = l₁ ++ cLock :: l₂ ++ cOther :: l₃ ∧
      isLockCol cLock = true ∧ isNonLockAliased cOther = true) := by
  intro cs
  induction cs with
  | nil =>
    intro seen m h
    exact DualWalk.noConfusion h
  | cons c rest ih =>
    intro seen m h
    unfold dualWalk at h
    match c with
    | .star n => exact DualWalk.noConfusion h
    | .otherSelectExpr n => exact DualWalk.noConfusion h
    | .aliased e asName =>
      rcases hl : e.lockingFunc with _ | ⟨typ, nameArg⟩
      · simp only [hl] at h
        cases seen with
        | true =>
          simp only [if_true] at h
          exact Or.inl ⟨rfl, [], .aliased e asName, rest, rfl, by
            simp [isNonLockAliased, hl]⟩
        | false =>
          simp only [Bool.false_eq_true, if_false] at h
          rcases htr : vs.translate e with n | v
          · simp only [htr] at h
            exact DualWalk.noConfusion h
          · simp only [htr] at h
            rcases hrest : dualWalk vs rest false with _ | e2 | ⟨ex, cols, lfs⟩ <;>
              simp only [hrest] at h
            · exact DualWalk.noConfusion h
            · have he2 : e2 = PErr.vt12001 m := by
                injection h
              subst he2
              rcases ih false m hrest with ⟨hseen, _⟩ | ⟨l₁, cLock, l₂, cOther, l₃, hsplit, hL, hN⟩
              · exact Bool.noConfusion hseen
              · refine Or.inr ⟨.aliased e asName :: l₁, cLock, l₂, cOther, l₃, ?_, hL, hN⟩
                rw [hsplit]
                rfl
            · exact DualWalk.noConfusion h
      · simp only [hl] at h
        rcases hle : lockElem vs typ nameArg with err | lf
        · simp only [hle] at h
          have herr : err = PErr.vt12001 m := by injection h
          subst herr
          unfold lockElem at hle
          rcases nameArg with _ | ne
          · exact Except.noConfusion hle
          · rcases htr : vs.translate ne with n | v <;> simp only [htr] at hle
            · have : PErr.wrapped n = PErr.vt12001 m := by injection hle
              exact PErr.noConfusion this
            · exact Except.noConfusion hle
        · simp only [hle] at h
          rcases hrest : dualWalk vs rest true with _ | e2 | ⟨ex, cols, lfs⟩ <;>
            simp only [hrest] at h
          · exact DualWalk.noConfusion h
          · have he2 : e2 = PErr.vt12001 m := by injection h
            subst he2
            rcases ih true m hrest with ⟨_, l₁, cOther, l₂, hsplit, hN⟩ |
              ⟨l₁, cLock, l₂, cOther, l₃, hsplit, hL, hN⟩
            · refine Or.inr ⟨[], .aliased e asName, l₁, cOther, l₂, ?_, by
                simp [isLockCol, hl], hN⟩
              rw [hsplit]
              rfl
            · refine Or.inr ⟨.aliased e asName :: l₁, cLock, l₂, cOther, l₃, ?_, hL, hN⟩
              rw [hsplit]
              rfl
          · exact DualWalk.noConfusion h

/-- Claim C10: for a dual-only select whose columns are translatable
non-locking aliased expressions followed by one locking function,
handleDualSelects raises no VT12001 error and builds a Lock primitive whose
LockFunctions holds only that locking function, silently discarding the
earlier translated expressions; and a VT12001 error can only arise when a
non-locking aliased expression follows an already-seen locking function. -/
theorem handleDualSelects_locking (vs : VSchema) (sel : Select) (ks : Keyspace)
    (cs₁ : List SelectExpr) (lf : Expr) (asName : String)
    (typ : String) (nameArg : Option Expr) (elem : LockFunc)
    (hDual : isOnlyDual sel = true)
    (hCols : sel.selectExprs = cs₁ ++ [SelectExpr.aliased lf asName])
    (hPre : ∀ c ∈ cs₁, nonLockTranslatable vs c)
    (hLock : lf.lockingFunc = some (typ, nameArg))
    (hElem : lockElem vs typ nameArg = .ok elem)
    (hKs : vs.firstSortedKeyspace = .ok ks) :
    handleDualSelects vs sel =
      .ok (some (.lock ks.name [0] (vs.impossibleQuery sel) [elem])) ∧
    (∀ sel2 m, handleDualSelects vs sel2 = .error (PErr.vt12001 m) →
      ∃ l₁ cLock l₂ cOther l₃,
        sel2.selectExprs = l₁ ++ cLock :: l₂ ++ cOther :: l₃ ∧
        isLockCol cLock = true ∧ isNonLockAliased cOther = true) := by
  constructor
  · have htail : dualWalk vs [SelectExpr.aliased lf asName] false = .done [] [] [elem] := by
      unfold dualWalk
      simp only [hLock, hElem]
      rfl
    obtain ⟨ex2, cols2, hwalk⟩ :=
      dualWalk_nonlock_front vs cs₁ [SelectExpr.aliased lf asName] hPre [] [] [elem] htail
    unfold handleDualSelects
    rw [hDual]
    simp only [Bool.not_true, Bool.false_eq_true, if_false, ← hCols] at hwalk ⊢
    rw [hwalk]
    simp only [List.isEmpty_cons, Bool.false_eq_true, if_false]
    unfold buildLockingPrimitive
    rw [hKs]
  · intro sel2 m h
    unfold handleDualSelects at h
    by_cases hd : isOnlyDual sel2
    · rw [hd] at h
      simp only [Bool.not_true, Bool.false_eq_true, if_false] at h
      rcases hw : dualWalk vs sel2.selectExprs false with _ | e2 | ⟨ex, cols, lfs⟩ <;>
        rw [hw] at h
      · exact Except.noConfusion h
      · have he2 : e2 = PErr.vt12001 m := by injection h
        subst he2
        rcases dualWalk_vt12001_split vs sel2.selectExprs false m hw with ⟨hseen, _⟩ | hsplit
        · exact Bool.noConfusion hseen
        · exact hsplit
      · rcases lfs with _ | ⟨lf0, lfs0⟩
        · simp at h
        · simp only [List.isEmpty_cons, Bool.false_eq_true, if_false] at h
          unfold buildLockingPrimitive at h
          rcases hk : vs.firstSortedKeyspace with n | ks0 <;> rw [hk] at h
          · have : PErr.wrapped n = PErr.vt12001 m := by injection h
            exact PErr.noConfusion this
          · exact Except.noConfusion h
    · rw [Bool.not_eq_true] at hd
      simp only [hd, Bool.not_false, if_true] at h
      exact Except.noConfusion h

/-- Claim C10 witness: SELECT 1, GET_LOCK(...) FROM dual yields a Lock
primitive holding only the lock function, with no VT12001 error. -/
theorem handleDualSelects_locking_witness :
    handleDualSelects trivialVS dualLockSel =
      .ok (some (.lock "ks1" [0] "impossible" [⟨"get_lock", none⟩])) :=
  (handleDualSelects_locking trivialVS dualLockSel ⟨"ks1", false⟩
    [SelectExpr.aliased (Expr.literal "1") ""] (Expr.lockingFuncNoArg "get_lock") ""
    "get_lock" none ⟨"get_lock", none⟩ rfl rfl
    (by
      intro c hc
      simp only [List.mem_singleton] at hc
      subst hc
      exact ⟨Expr.literal "1", "", ⟨Expr.literal "1"⟩, rfl, rfl, rfl⟩)
    rfl rfl rfl).1

/-! ## C6: Binary vindex roundtrip -/

/-- Claim C6 counterexample: for the INT64 value 1 (whose ToBytes is
non-nil), ReverseMap after Map yields a VarBinary value with the same
bytes, which is not equal to the original value, so the roundtrip
ReverseMap(Map(v)) == v fails. -/
theorem binary_roundtrip_counterexample :
    intOne.toBytes = .ok (some [49]) ∧
    binaryMap [intOne] = ([.destinationKeyspaceID (some [49])], none) ∧
    binaryReverseMap [some [49]] = .ok [⟨.varBinary, some [49]⟩] ∧
    (⟨VType.varBinary, some [49]⟩ : Value) ≠ intOne := by
  refine ⟨rfl, rfl, rfl, ?_⟩
  decide

/-- Claim C6, amended: for every value v whose ToBytes is non-nil, Map
yields the keyspace id of its raw bytes and ReverseMap yields a VarBinary
value of those bytes — so the roundtrip preserves the bytes, and equals v
exactly when v is itself a VarBinary value; ReverseMap applied to a list
containing a nil keyspace id fails with an error. -/
theorem binary_roundtrip (v : Value) (b : List Nat)
    (h : v.toBytes = .ok (some b)) :
    binaryMap [v] = ([.destinationKeyspaceID (some b)], none) ∧
    binaryReverseMap [some b] = .ok [MakeTrusted .varBinary (some b)] ∧
    (binaryReverseMap [some b] = .ok [v] ↔ v.typ = .varBinary) ∧
    (∀ ksids : List (Option (List Nat)), none ∈ ksids →
      binaryReverseMap ksids = .error "Binary.ReverseMap: keyspaceId is nil") := by
  obtain ⟨t, val⟩ := v
  have hval : val = some b := by
    cases t <;> simp [Value.toBytes] at h <;> exact h
  subst hval
  refine ⟨?_, rfl, ?_, ?_⟩
  · simp [binaryMap, binaryHash, h]
  · simp only [binaryReverseMap, MakeTrusted]
    constructor
    · intro heq
      have h1 := (Except.ok.injEq _ _ ▸ heq : _)
      have h2 : (⟨VType.varBinary, some b⟩ : Value) = ⟨t, some b⟩ := by
        injection heq with h3
        exact (List.cons.injEq _ _ _ _ ▸ h3 : _).1
      have h4 := congrArg Value.typ h2
      exact h4.symm
    · intro ht
      rw [ht]
  · intro ksids
    induction ksids with
    | nil =>
      intro hmem
      simp at hmem
    | cons k rest ih =>
      intro hmem
      rcases k with _ | k
      · rfl
      · have hmem2 : none ∈ rest := by
          rcases List.mem_cons.mp hmem with hk | hk
          · exact Option.noConfusion hk
          · exact hk
        simp only [binaryReverseMap, ih hmem2]

/-- Claim C6 witness: the amended roundtrip applied to a VarBinary value,
for which it is the identity. -/
theorem binary_roundtrip_witness :
    binaryMap [vbVal] = ([.destinationKeyspaceID (some [0, 1])], none) ∧
    binaryReverseMap [some [0, 1]] = .ok [vbVal] :=
  ⟨(binary_roundtrip vbVal [0, 1] rfl).1,
   (binary_roundtrip vbVal [0, 1] rfl).2.2.1.mpr rfl⟩

/-! ## Connection fixtures -/

/-! ## C2: operations on a released connection -/

/-- Claim C2 counterexample: on a released connection (dbConn is nil),
ApplySetting and Kill reach the absent backend connection — a nil-pointer
dereference — instead of being rejected. -/
theorem released_applySetting_kill_counterexample :
    (ApplySetting none none releasedSC).1 = GoResult.panicked ∧
    (Kill "kill" 0 none releasedSC).1 = GoResult.panicked :=
  ⟨rfl, rfl⟩

/-- Claim C2, amended: once released, dbConn is nil and Exec, execWithRetry,
FetchNext and Taint are rejected with errors while Unlock and Release are
idempotent no-ops; but ApplySetting and Kill are not rejected: they
dereference the absent backend connection. -/
theorem released_ops (sc : SC) (h : sc.dbConn = none) :
    (∀ d backend, ∃ e, (Exec d backend sc).1 = .error (.vt e) ∧
      e.code = .aborted ∧ (Exec d backend sc).2 = sc) ∧
    (∀ backend, execWithRetry backend sc =
      (.error (.vt ⟨.canceled, "connection is closed"⟩), sc)) ∧
    (∀ backend, FetchNext backend sc =
      (.error (.vt ⟨.canceled, "connection is closed"⟩), sc)) ∧
    (∀ ec ic, Taint ec ic sc =
      (.error ⟨.failedPrecondition, "connection is closed"⟩, sc)) ∧
    Unlock sc = sc ∧
    UnlockUpdateTime sc = sc ∧
    (∀ r, ReleaseString r sc = sc) ∧
    (∀ s a, ApplySetting s a sc = (.panicked, sc)) ∧
    (∀ r el k, Kill r el k sc = (.panicked, sc)) := by
  have hcl : sc.isClosed = true := by simp [SC.isClosed, h]
  refine ⟨?_, ?_, ?_, ?_, ?_, ?_, ?_, ?_, ?_⟩
  · intro d backend
    rcases htx : sc.txProps with _ | tp
    · exact ⟨⟨.aborted, "connection was aborted"⟩,
        by simp [Exec, hcl, htx], rfl, by simp [Exec, hcl, htx]⟩
    · exact ⟨⟨.aborted, "transaction was aborted: " ++ tp.conclusion⟩,
        by simp [Exec, hcl, htx], rfl, by simp [Exec, hcl, htx]⟩
  · intro backend
    simp [execWithRetry, hcl]
  · intro backend
    simp [FetchNext, hcl]
  · intro ec ic
    simp [Taint, h]
  · simp [Unlock, unlock, h]
  · simp [UnlockUpdateTime, unlock, h]
  · intro r
    simp [ReleaseString, h]
  · intro s a
    simp [ApplySetting, h]
  · intro r el k
    simp [Kill, h]

/-- Claim C2 witness: the amended theorem applied to the released
connection fixture. -/
theorem released_ops_witness :
    execWithRetry (.ok "") releasedSC =
      (.error (.vt ⟨.canceled, "connection is closed"⟩), releasedSC) ∧
    ApplySetting none none releasedSC = (.panicked, releasedSC) :=
  ⟨(released_ops releasedSC rfl).2.1 (.ok ""),
   (released_ops releasedSC rfl).2.2.2.2.2.2.2.1 none none⟩

/-! ## C3: Exec after Release -/

/-- Release is a no-op once the backend connection has been nulled out. -/
theorem releaseString_noop (r : String) (sc : SC) (h : sc.dbConn = none) :
    ReleaseString r sc = sc := by
  unfold ReleaseString
  simp only [h]

/-- Release nulls out the backend, preserves the transaction state, calls
the pool unregister hook exactly once when a pool is present, and records
no unregister call otherwise. -/
theorem releaseString_effects (r : String) (sc : SC) (c : DBConn)
    (hdb : sc.dbConn = some c) :
    (ReleaseString r sc).dbConn = none ∧
    (ReleaseString r sc).txProps = sc.txProps ∧
    (ReleaseString r sc).poolPresent = sc.poolPresent ∧
    (sc.poolPresent = true →
      countUnregister (ReleaseString r sc).log = countUnregister sc.log + 1) ∧
    (sc.poolPresent = false →
      countUnregister (ReleaseString r sc).log = countUnregister sc.log) := by
  obtain ⟨pp, db, cid, tx, rp, tnt, skip, now, log⟩ := sc
  simp only [SC.dbConn] at hdb
  subst hdb
  cases pp <;> cases rp <;> cases skip <;>
    simp [ReleaseString, logReservedConn, emit, countUnregister, List.filter_append]

/-- Claim C3 counterexample: Exec after Release on a connection that was in
no transaction returns code ABORTED ("connection was aborted"), not
CANCELED as the claim states. -/
theorem exec_after_release_counterexample :
    (Exec false (.ok 0) (ReleaseString "conn released" baseSC)).1 =
      .error (.vt ⟨.aborted, "connection was aborted"⟩) ∧
    Code.aborted ≠ Code.canceled :=
  ⟨rfl, by decide⟩

/-- Claim C3, amended: for every in-use StatefulConnection, Exec after
Release returns code ABORTED — with message "connection was aborted" when
no transaction state is present, and "transaction was aborted: ..." when
transaction state remains (Release does not clear it) — and by then the
pool's unregister hook has been called exactly once, further releases
adding nothing. -/
theorem exec_after_release (sc : SC) (c : DBConn) (r : String)
    (hdb : sc.dbConn = some c) (hp : sc.poolPresent = true) :
    (sc.txProps = none → ∀ d backend,
      (Exec d backend (ReleaseString r sc)).1 =
        .error (.vt ⟨.aborted, "connection was aborted"⟩)) ∧
    (∀ tp, sc.txProps = some tp → ∀ d backend,
      (Exec d backend (ReleaseString r sc)).1 =
        .error (.vt ⟨.aborted, "transaction was aborted: " ++ tp.conclusion⟩)) ∧
    countUnregister (ReleaseString r sc).log = countUnregister sc.log + 1 ∧
    (∀ r2, ReleaseString r2 (ReleaseString r sc) = ReleaseString r sc) := by
  obtain ⟨hnone, htx, hpp, hcount, _⟩ := releaseString_effects r sc c hdb
  have hcl : (ReleaseString r sc).isClosed = true := by
    simp [SC.isClosed, hnone]
  refine ⟨?_, ?_, hcount hp, ?_⟩
  · intro h0 d backend
    simp [Exec, hcl, htx, h0]
  · intro tp h0 d backend
    simp [Exec, hcl, htx, h0]
  · intro r2
    exact releaseString_noop r2 _ hnone

/-- Claim C3 witness: the amended theorem applied to the in-use fixture
connection. -/
theorem exec_after_release_witness :
    (Exec true (.ok 1) (ReleaseString "conn released" baseSC)).1 =
      .error (.vt ⟨.aborted, "connection was aborted"⟩) ∧
    countUnregister (ReleaseString "conn released" baseSC).log =
      countUnregister baseSC.log + 1 :=
  ⟨(exec_after_release baseSC freshConn "conn released" rfl rfl).1 rfl true (.ok 1),
   (exec_after_release baseSC freshConn "conn released" rfl rfl).2.2.1⟩

/-! ## C8: Taint -/

/-- Claim C8: Taint fails with FAILED_PRECONDITION when the connection is
released or already tainted — so a second Taint on the same connection
always fails — and otherwise records reserved properties from the context
caller ids, sets the tainted flag, taints the backend connection, and
increments UserActiveReservedCount by one under the user label, or under
the disabled sentinel label when SkipUserMetrics is set. -/
theorem taint_contract (sc : SC) (c : DBConn) (ec ic : Option String)
    (hdb : sc.dbConn = some c) :
    (∀ sc2 : SC, sc2.dbConn = none →
      Taint ec ic sc2 = (.error ⟨.failedPrecondition, "connection is closed"⟩, sc2)) ∧
    (sc.tainted = true →
      Taint ec ic sc = (.error ⟨.failedPrecondition, "connection is already reserved"⟩, sc)) ∧
    (sc.tainted = false →
      (Taint ec ic sc).1 = .ok () ∧
      (Taint ec ic sc).2.reservedProps = some ⟨ec, ic, sc.now⟩ ∧
      (Taint ec ic sc).2.tainted = true ∧
      (Taint ec ic sc).2.dbConn = some { c with backendTainted := true } ∧
      (Taint ec ic sc).2.log = sc.log ++ [.backendTaint,
        .userActiveReservedAdd
          (if sc.skipUserMetrics then userLabelDisabled
           else getUsername ⟨ec, ic, sc.now⟩) 1] ∧
      (∀ ec2 ic2, (Taint ec2 ic2 (Taint ec ic sc).2).1 =
        .error ⟨.failedPrecondition, "connection is already reserved"⟩)) := by
  refine ⟨?_, ?_, ?_⟩
  · intro sc2 h2
    simp [Taint, h2]
  · intro ht
    simp [Taint, hdb, ht]
  · intro ht
    obtain ⟨pp, db, cid, tx, rp, tnt, skip, now, log⟩ := sc
    simp only [SC.dbConn] at hdb
    simp only [SC.tainted] at ht
    subst hdb
    subst ht
    cases skip <;>
      exact ⟨rfl, rfl, rfl, rfl, by simp [Taint, emit, getUsername], fun ec2 ic2 => rfl⟩

/-- Claim C8 witness: tainting the healthy fixture connection succeeds and
bumps the active-reserved counter under the caller's principal. -/
theorem taint_contract_witness :
    (Taint (some "alice") none baseSC).1 = .ok () ∧
    (Taint (some "alice") none baseSC).2.log =
      baseSC.log ++ [.backendTaint, .userActiveReservedAdd "alice" 1] := by
  refine ⟨((taint_contract baseSC freshConn (some "alice") none rfl).2.2 rfl).1, ?_⟩
  have h := ((taint_contract baseSC freshConn (some "alice") none rfl).2.2 rfl).2.2.2.2.1
  simpa [getUsername] using h

/-! ## C9: reserved-connection metric parity on release -/

/-- Claim C9 counterexample: with SkipUserMetrics set, releasing a tainted
connection decrements UserActiveReservedCount under the disabled label but
performs no UserReservedCount increment and no UserReservedTimesNs addition
at all, contrary to the claim that those updates happen under the disabled
label. -/
theorem skip_metrics_release_counterexample :
    countActiveReserved userLabelDisabled (-1)
      (ReleaseString "r" (Taint (some "alice") none skipSC).2).log = 1 ∧
    countUserReservedAdd
      (ReleaseString "r" (Taint (some "alice") none skipSC).2).log = 0 ∧
    countUserReservedTimesNsAdd
      (ReleaseString "r" (Taint (some "alice") none skipSC).2).log = 0 :=
  ⟨rfl, rfl, rfl⟩

/-- Claim C9, amended: every Taint of a fresh connection is balanced on
release by exactly one UserActiveReservedCount decrement; when
SkipUserMetrics is unset the release also performs exactly one
UserReservedCount increment and one UserReservedTimesNs addition of the
elapsed nanoseconds under the same user label, but when SkipUserMetrics is
set only the decrement happens, under the disabled sentinel label; a second
release adds nothing. -/
theorem taint_release_metrics (sc : SC) (c : DBConn) (ec ic : Option String)
    (dt : Nat) (r : String)
    (hdb : sc.dbConn = some c) (ht : sc.tainted = false) (hp : sc.poolPresent = true) :
    ((Taint ec ic sc).2.log = sc.log ++ [.backendTaint,
       .userActiveReservedAdd (if sc.skipUserMetrics then userLabelDisabled
          else getUsername ⟨ec, ic, sc.now⟩) 1]) ∧
    (sc.skipUserMetrics = false →
      (ReleaseString r (tick dt (Taint ec ic sc).2)).log =
        (tick dt (Taint ec ic sc).2).log ++
          [.unregister sc.connID r, .recycle, .reservedTimingRecord r sc.now,
           .userActiveReservedAdd (getUsername ⟨ec, ic, sc.now⟩) (-1),
           .userReservedAdd (getUsername ⟨ec, ic, sc.now⟩) 1,
           .userReservedTimesNsAdd (getUsername ⟨ec, ic, sc.now⟩) (Int.ofNat dt)]) ∧
    (sc.skipUserMetrics = true →
      (ReleaseString r (tick dt (Taint ec ic sc).2)).log =
        (tick dt (Taint ec ic sc).2).log ++
          [.unregister sc.connID r, .recycle, .reservedTimingRecord r sc.now,
           .userActiveReservedAdd userLabelDisabled (-1)]) ∧
    (∀ r2, ReleaseString r2 (ReleaseString r (tick dt (Taint ec ic sc).2)) =
      ReleaseString r (tick dt (Taint ec ic sc).2)) := by
  obtain ⟨pp, db, cid, tx, rp, tnt, skip, now, log⟩ := sc
  simp only [SC.dbConn] at hdb
  simp only [SC.tainted] at ht
  simp only [SC.poolPresent] at hp
  subst hdb
  subst ht
  subst hp
  cases skip
  · refine ⟨by simp [Taint, emit], ?_, ?_, ?_⟩
    · intro _
      simp [Taint, tick, ReleaseString, logReservedConn, emit,
        Nat.add_sub_cancel_left]
    · intro hcontra
      exact Bool.noConfusion hcontra
    · intro r2
      exact releaseString_noop r2 _ rfl
  · refine ⟨by simp [Taint, emit], ?_, ?_, ?_⟩
    · intro hcontra
      exact Bool.noConfusion hcontra
    · intro _
      simp [Taint, tick, ReleaseString, logReservedConn, emit]
    · intro r2
      exact releaseString_noop r2 _ rfl

/-- Claim C9 witness: the amended theorem applied to the fixture connection
with user metrics enabled and five nanoseconds elapsing before release. -/
theorem taint_release_metrics_witness :
    (ReleaseString "r" (tick 5 (Taint (some "alice") none baseSC).2)).log =
      (tick 5 (Taint (some "alice") none baseSC).2).log ++
        [.unregister 7 "r", .recycle, .reservedTimingRecord "r" 100,
         .userActiveReservedAdd "alice" (-1), .userReservedAdd "alice" 1,
         .userReservedTimesNsAdd "alice" (Int.ofNat 5)] := by
  have h := (taint_release_metrics baseSC freshConn (some "alice") none 5 "r"
    rfl rfl rfl).2.1 rfl
  simpa [getUsername] using h

end Vitess
